import Mathlib

/-!
Shallow embedding of the incremental processing engine interface of
`lib/inc-proc-eng.h` (OVN), together with the leaf "OVSDB table" node
callbacks stamped out by the `ENGINE_FUNC_OVSDB` macro family.  The header
declares the data model (node states, handler results, node and leaf-payload
structures, size bounds) and defines, as macros and inline functions, the
leaf callbacks (`run`, `init`, `cleanup`, `compute_failure_info`), the
node-definition initializers (`ENGINE_NODE_DEF_START`) and the no-op change
handler (`engine_noop_handler`).  Those are embedded directly from the
source.  The engine driver's own bodies (`engine_get_data`,
`engine_add_input`, the per-node traversal step of `engine_run`) live in
`lib/inc-proc-eng.c`, which is not among the sources; where a claim needs
them they are modelled from the specification and marked as such.

External, opaque collaborators of the header (IDL handles, table handles,
tracked rows, index handles) are type parameters or small record types: the
embedded code never inspects them beyond the operations the header itself
uses (`..._table_track_get_first`, `..._table_get`, tracked-row sequence
numbers and per-column update flags).
-/

namespace IncProcEng

/-- `#define ENGINE_MAX_INPUT 256` (inc-proc-eng.h line 148). -/
def ENGINE_MAX_INPUT : Nat := 256

/-- `#define ENGINE_MAX_OVSDB_INDEX 256` (inc-proc-eng.h line 149). -/
def ENGINE_MAX_OVSDB_INDEX : Nat := 256

/-- `enum engine_node_state` (inc-proc-eng.h lines 173-185): EN_STALE,
EN_UPDATED, EN_UNCHANGED, EN_CANCELED, plus the count sentinel
EN_STATE_MAX. -/
inductive engine_node_state where
  | EN_STALE
  | EN_UPDATED
  | EN_UNCHANGED
  | EN_CANCELED
  | EN_STATE_MAX
deriving DecidableEq, Repr

/-- The numeric value each `engine_node_state` enumerator receives from the
C default numbering (0, 1, 2, 3, 4). -/
def engine_node_state.toInt : engine_node_state → Int
  | .EN_STALE => 0
  | .EN_UPDATED => 1
  | .EN_UNCHANGED => 2
  | .EN_CANCELED => 3
  | .EN_STATE_MAX => 4

/-- `enum engine_input_handler_result` (inc-proc-eng.h lines 187-191):
EN_UNHANDLED = -1, EN_HANDLED_UPDATED = EN_UPDATED,
EN_HANDLED_UNCHANGED = EN_UNCHANGED. -/
inductive engine_input_handler_result where
  | EN_UNHANDLED
  | EN_HANDLED_UPDATED
  | EN_HANDLED_UNCHANGED
deriving DecidableEq, Repr

/-- The numeric value of each `engine_input_handler_result` enumerator,
written exactly as the C source assigns them: EN_UNHANDLED is -1 and the
two handled results reuse the values of the node states of the same
suffix. -/
def engine_input_handler_result.toInt : engine_input_handler_result → Int
  | .EN_UNHANDLED => -1
  | .EN_HANDLED_UPDATED => engine_node_state.EN_UPDATED.toInt
  | .EN_HANDLED_UNCHANGED => engine_node_state.EN_UNCHANGED.toInt

/-- The three enumerators of `engine_input_handler_result`, in declaration
order. -/
def engine_input_handler_result.enumerators : List engine_input_handler_result :=
  [.EN_UNHANDLED, .EN_HANDLED_UPDATED, .EN_HANDLED_UNCHANGED]

/-- C3: the handler-result enumeration has exactly the three values
EN_UNHANDLED, EN_HANDLED_UPDATED, EN_HANDLED_UNCHANGED (every value is one
of the three listed enumerators, the three are pairwise distinct), and the
latter two are numerically equal to the node states of the same suffix:
EN_HANDLED_UPDATED = EN_UPDATED and EN_HANDLED_UNCHANGED = EN_UNCHANGED. -/
theorem engine_input_handler_result_enum_spec :
    (∀ r : engine_input_handler_result,
      r ∈ engine_input_handler_result.enumerators) ∧
    engine_input_handler_result.enumerators.Nodup ∧
    engine_input_handler_result.enumerators.length = 3 ∧
    engine_input_handler_result.EN_HANDLED_UPDATED.toInt =
      engine_node_state.EN_UPDATED.toInt ∧
    engine_input_handler_result.EN_HANDLED_UNCHANGED.toInt =
      engine_node_state.EN_UNCHANGED.toInt := by
  refine ⟨fun r => ?_, by decide, rfl, rfl, rfl⟩
  cases r <;> simp [engine_input_handler_result.enumerators]

/-- `struct engine_stats` (inc-proc-eng.h lines 214-218): three uint64
counters.  Machine width is irrelevant to the claims; the counters are
embedded as naturals. -/
structure engine_stats where
  recompute : Nat
  compute : Nat
  cancel : Nat
deriving DecidableEq, Repr

/-- `struct engine_node_input` (inc-proc-eng.h lines 193-212): the input
node (a pointer, here the referenced node's unique name, `none` for a NULL
pointer as left by zero initialization) and the optional change-handler
function pointer.  Handler code is user supplied and opaque to the engine;
the slot is embedded with an abstract handler type `H`, `none` for a NULL
handler pointer. -/
structure engine_node_input (H : Type) where
  node : Option String
  change_handler : Option H
deriving DecidableEq, Repr

/-- `struct engine_node` (inc-proc-eng.h lines 220-275).  `data` is a void
pointer owned by the node, embedded as `Option D` (`none` = NULL).  The
callback function-pointer members (`init`, `cleanup`, `run`,
`clear_tracked_data`, `get_compute_failure_info`) are user supplied and are
embedded at their use sites as standalone functions (exactly how the
`ENGINE_FUNC_OVSDB` macro defines them as free functions); the optional
`is_valid` callback is represented by its observable verdict on this node:
`none` when the member is NULL, `some b` when the callback is present and
returns `b`.  The `inputs` member is a C array of exactly
`ENGINE_MAX_INPUT` elements, of which the first `n_inputs` are in use. -/
structure engine_node (D H : Type) where
  name : String
  n_inputs : Nat
  inputs : Mathlib.Vector (engine_node_input H) ENGINE_MAX_INPUT
  data : Option D
  state : engine_node_state
  is_valid : Option Bool
  stats : engine_stats

/-- An input-edge slot as C static zero initialization leaves it: both
pointers NULL. -/
def engine_node_input.zeroed (H : Type) : engine_node_input H :=
  { node := none, change_handler := none }

/-- `ENGINE_NODE_DEF_START(NAME, NAME_STR)` (inc-proc-eng.h lines 414-421):
the static initializer every `ENGINE_NODE*` definition macro expands to.
It sets `.name`, `.data = NULL`, `.state = EN_STALE` and the three callback
pointers; every member it does not mention (n_inputs, inputs, is_valid,
stats, ...) is zero initialized by C static-object semantics. -/
def ENGINE_NODE_DEF_START (D H : Type) (name : String) : engine_node D H :=
  { name := name
    n_inputs := 0
    inputs := Mathlib.Vector.replicate ENGINE_MAX_INPUT (engine_node_input.zeroed H)
    data := none
    state := .EN_STALE
    is_valid := none
    stats := { recompute := 0, compute := 0, cancel := 0 } }

/-- `engine_noop_handler` (inc-proc-eng.h lines 402-406): both parameters
are OVS_UNUSED and the body is `return EN_HANDLED_UNCHANGED;`. -/
def engine_noop_handler {D H α : Type} (node : engine_node D H) (data : α) :
    engine_input_handler_result :=
  .EN_HANDLED_UNCHANGED

/-- Modelled from the spec: the body of `engine_get_data` is in
`lib/inc-proc-eng.c`, which is not among the sources (the header only
declares it, lines 362-372).  Spec 4.3: "get_data(node) returns the node's
payload only if the node is in a fresh state (UPDATED or UNCHANGED this
iteration) OR the node defines is_valid and is_valid returns true.
Otherwise returns null." -/
def engine_get_data {D H : Type} (node : engine_node D H) : Option D :=
  if node.state = .EN_UPDATED ∨ node.state = .EN_UNCHANGED then
    node.data
  else if node.is_valid = some true then
    node.data
  else
    none

/-- Modelled from the spec: the body of `engine_add_input` is in
`lib/inc-proc-eng.c`, which is not among the sources (the header only
declares it, lines 313-315).  Spec 4.2: "engine_add_input(node, source,
handler?) appends an edge; it fails (design-level precondition) if
node.n_inputs == MAX_INPUTS or if a sibling input already bears the same
source name."  Failure of the design-level precondition is embedded as
`none`. -/
def engine_add_input {D H : Type} (node : engine_node D H)
    (input_name : String) (handler : Option H) : Option (engine_node D H) :=
  if h : node.n_inputs < ENGINE_MAX_INPUT then
    if (node.inputs.toList.take node.n_inputs).any
        (fun i => i.node = some input_name) then
      none
    else
      some { node with
              n_inputs := node.n_inputs + 1
              inputs := node.inputs.set ⟨node.n_inputs, h⟩
                ⟨some input_name, handler⟩ }
  else
    none

/-- `struct ed_ovsdb_index` (inc-proc-eng.h lines 384-387): a name and an
IDL index handle, both pointers (`none` = NULL, the value zero
initialization leaves). The index handle type is abstract (`Index`). -/
structure ed_ovsdb_index (Index : Type) where
  name : Option String
  index : Option Index
deriving DecidableEq, Repr

/-- The zeroed `ed_ovsdb_index` slot: both pointers NULL. -/
def ed_ovsdb_index.zeroed (Index : Type) : ed_ovsdb_index Index :=
  { name := none, index := none }

/-- `struct ed_type_ovsdb_table` (inc-proc-eng.h lines 389-393): the table
handle (a const void pointer, abstract type `Table`, `none` = NULL), the
number of registered indexes, and a C array of exactly
`ENGINE_MAX_OVSDB_INDEX` index slots. -/
structure ed_type_ovsdb_table (Table Index : Type) where
  table : Option Table
  n_indexes : Nat
  indexes : Mathlib.Vector (ed_ovsdb_index Index) ENGINE_MAX_OVSDB_INDEX
deriving DecidableEq

/-- `en_<DB>_<TBL>_run` from `ENGINE_FUNC_OVSDB` (inc-proc-eng.h lines
454-464).  The body reads the node's payload table through `EN_OVSDB_GET`
and returns EN_UPDATED when `<DB>rec_<TBL>_table_track_get_first(table)` is
non-null, EN_UNCHANGED otherwise; the external probe is the abstract
function argument `track_get_first`.  The C function writes nothing; the
embedding returns the resulting state together with the node payload it
leaves behind, which is the payload it was given. -/
def en_ovsdb_run {Table Row Index : Type}
    (track_get_first : Option Table → Option Row)
    (node_data : ed_type_ovsdb_table Table Index) :
    engine_node_state × ed_type_ovsdb_table Table Index :=
  if (track_get_first node_data.table).isSome then
    (.EN_UPDATED, node_data)
  else
    (.EN_UNCHANGED, node_data)

/-- The database selector of the `ENGINE_FUNC_OVSDB(DB_NAME, TBL_NAME)`
macro family: DB_NAME is one of `sb`, `nb`, `ovs` (macros ENGINE_FUNC_SB /
ENGINE_FUNC_NB / ENGINE_FUNC_OVS, inc-proc-eng.h lines 516-527). -/
inductive db_name where
  | sb
  | nb
  | ovs
deriving DecidableEq, Repr

/-- `struct engine_arg` (inc-proc-eng.h lines 164-169): the three IDL
handles passed to engine_init. -/
structure engine_arg (Idl : Type) where
  sb_idl : Idl
  nb_idl : Idl
  ovs_idl : Idl
deriving DecidableEq, Repr

/-- The member access `arg->DB_NAME##_idl` of the generated init
callback. -/
def engine_arg.get_idl {Idl : Type} (arg : engine_arg Idl) :
    db_name → Idl
  | .sb => arg.sb_idl
  | .nb => arg.nb_idl
  | .ovs => arg.ovs_idl

/-- `en_<DB>_<TBL>_init` from `ENGINE_FUNC_OVSDB` (inc-proc-eng.h lines
465-473).  The body xzalloc-s a `struct ed_type_ovsdb_table` (zero
initialized, and never NULL: xzalloc aborts instead of returning NULL) and
sets its `table` member to `<DB>rec_<TBL>_table_get(arg-><DB>_idl)`; the
external accessor is the abstract argument `table_get`.  The void-pointer
return is `Option` so that a NULL return is expressible; this init always
returns `some`. -/
def en_ovsdb_init {Idl Table Index : Type} (db : db_name)
    (table_get : Idl → Table) (arg : engine_arg Idl) :
    Option (ed_type_ovsdb_table Table Index) :=
  some { table := some (table_get (arg.get_idl db))
         n_indexes := 0
         indexes := Mathlib.Vector.replicate ENGINE_MAX_OVSDB_INDEX
           (ed_ovsdb_index.zeroed Index) }

/-- `en_<DB>_<TBL>_cleanup` from `ENGINE_FUNC_OVSDB` (inc-proc-eng.h lines
474-476): the parameter is OVS_UNUSED and the body is empty.  The embedding
passes the heap cell holding the payload through (`none` would stand for a
freed cell): the C body neither modifies nor frees it. -/
def en_ovsdb_cleanup {D : Type} (data : Option D) : Option D :=
  data

/-- A tracked IDL row as the generated `compute_failure_info` callback
observes it: its uuid, its insert and delete change sequence numbers
(`ovsdb_idl_row_get_seqno(row, OVSDB_IDL_CHANGE_INSERT / _DELETE)`,
naturals in the source: unsigned counters), and, for each column of the
table schema in order, the column name and the verdict of
`ovsdb_idl_track_is_updated(row, col)`. -/
structure tracked_row where
  uuid : Nat
  insert_seqno : Nat
  delete_seqno : Nat
  columns : List (String × Bool)
deriving DecidableEq, Repr

/-- One line the generated `compute_failure_info` callback emits per
tracked row: the row's uuid tagged "(New)", "(Deleted)", or "(Updated)"
with the list of changed column names. -/
inductive row_change where
  | rowNew (uuid : Nat)
  | rowDeleted (uuid : Nat)
  | rowUpdated (uuid : Nat) (changed_columns : List String)
deriving DecidableEq, Repr

/-- The inner column loop of the Updated branch (inc-proc-eng.h lines
500-506): the names of the columns for which
`ovsdb_idl_track_is_updated(row, col)` holds, in schema order. -/
def changed_column_names (r : tracked_row) : List String :=
  r.columns.filterMap fun c => if c.2 then some c.1 else none

/-- The row classification of the generated `compute_failure_info` body
(inc-proc-eng.h lines 490-508): insert seqno > 0 wins, else delete
seqno > 0, else the row is reported Updated with its changed columns. -/
def classify_tracked_row (r : tracked_row) : row_change :=
  if r.insert_seqno > 0 then
    .rowNew r.uuid
  else if r.delete_seqno > 0 then
    .rowDeleted r.uuid
  else
    .rowUpdated r.uuid (changed_column_names r)

/-- `en_<DB>_<TBL>_compute_failure_info` from `ENGINE_FUNC_OVSDB`
(inc-proc-eng.h lines 477-512).  If `VLOG_IS_DBG_ENABLED()` is false the
body returns before touching anything (the debug log record is the only
observable effect of the function, embedded as the returned list of
per-row lines, empty = nothing emitted).  Otherwise the body walks the
table's tracked rows with `ovsdb_idl_track_get_first` /
`ovsdb_idl_track_get_next` (argument `rows`, in that traversal order) and
emits one classification line per row. -/
def en_ovsdb_compute_failure_info (dbg_enabled : Bool)
    (rows : List tracked_row) : List row_change :=
  if dbg_enabled then
    rows.map classify_tracked_row
  else
    []

/-- Modelled from the spec: the per-node input scan of `engine_run`'s
traversal is in `lib/inc-proc-eng.c`, which is not among the sources.
Spec 4.1 traversal step 2c: walk the inputs in registration order carrying
the flags needs_recompute / any_handled_update; an UNCHANGED input is
skipped; an UPDATED input without a handler, or whose handler returned
EN_UNHANDLED, sets needs_recompute and stops the scan; EN_HANDLED_UPDATED
sets any_handled_update; EN_HANDLED_UNCHANGED leaves the flags as they
are.  Each list entry is an input's source state paired with the result
its change handler returns when invoked (`none` = no handler registered).
Returns (needs_recompute, any_handled_update). -/
def engine_inputs_scan (any_handled_update : Bool) :
    List (engine_node_state × Option engine_input_handler_result) →
    Bool × Bool
  | [] => (false, any_handled_update)
  | (st, h) :: rest =>
    if st = .EN_UPDATED then
      match h with
      | none => (true, any_handled_update)
      | some .EN_UNHANDLED => (true, any_handled_update)
      | some .EN_HANDLED_UPDATED => engine_inputs_scan true rest
      | some .EN_HANDLED_UNCHANGED => engine_inputs_scan any_handled_update rest
    else
      engine_inputs_scan any_handled_update rest

/-- Modelled from the spec: the per-node state assignment of
`engine_run`'s traversal (spec 4.1, step 2) is in `lib/inc-proc-eng.c`,
which is not among the sources.  Step 2a: a node any of whose input
sources is CANCELED becomes CANCELED.  Step 2b: in a forced full
recompute the node takes the state its `run` callback returns
(`run_result`).  Step 2c: otherwise the inputs are scanned; if a
recompute is needed, the node runs (taking `run_result`) when recompute
is allowed and becomes CANCELED when it is not; else it becomes UPDATED
when some handler updated it and UNCHANGED otherwise. -/
def engine_run_node_step (forced recompute_allowed : Bool)
    (inputs : List (engine_node_state × Option engine_input_handler_result))
    (run_result : engine_node_state) : engine_node_state :=
  if inputs.any (fun i => i.1 = .EN_CANCELED) then
    .EN_CANCELED
  else if forced then
    run_result
  else
    let scan := engine_inputs_scan false inputs
    if scan.1 then
      if recompute_allowed then run_result else .EN_CANCELED
    else if scan.2 then
      .EN_UPDATED
    else
      .EN_UNCHANGED

/-- The four node states a node may hold (spec 3: "state: one of STALE,
UPDATED, UNCHANGED, CANCELED"); the fifth enumerator EN_STATE_MAX is only
the count sentinel of the C enum. -/
def engine_node_state.valid : engine_node_state → Bool
  | .EN_STALE => true
  | .EN_UPDATED => true
  | .EN_UNCHANGED => true
  | .EN_CANCELED => true
  | .EN_STATE_MAX => false

/-- C1: for every instantiation of the `ENGINE_FUNC_OVSDB` run callback,
the callback returns EN_UPDATED when the table's tracked-change probe
(track_get_first) yields a row, EN_UNCHANGED when it yields none; it never
returns EN_STALE or EN_CANCELED; and it leaves the node's data payload
exactly as it found it. -/
theorem en_ovsdb_run_spec {Table Row Index : Type}
    (track_get_first : Option Table → Option Row)
    (d : ed_type_ovsdb_table Table Index) :
    ((track_get_first d.table).isSome = true →
      (en_ovsdb_run track_get_first d).1 = .EN_UPDATED) ∧
    (track_get_first d.table = none →
      (en_ovsdb_run track_get_first d).1 = .EN_UNCHANGED) ∧
    (en_ovsdb_run track_get_first d).1 ≠ .EN_STALE ∧
    (en_ovsdb_run track_get_first d).1 ≠ .EN_CANCELED ∧
    (en_ovsdb_run track_get_first d).2 = d := by
  cases h : track_get_first d.table <;> simp [en_ovsdb_run, h]

/-- C2: `engine_get_data` hands out the node's data payload exactly when
the node's state is EN_UPDATED or EN_UNCHANGED, or the node defines an
is_valid callback that returns true; in every other case it returns NULL.
(Modelled from the spec: the function body is in lib/inc-proc-eng.c, which
is not among the sources.) -/
theorem engine_get_data_spec {D H : Type} (node : engine_node D H) :
    ((node.state = .EN_UPDATED ∨ node.state = .EN_UNCHANGED ∨
        node.is_valid = some true) →
      engine_get_data node = node.data) ∧
    (¬(node.state = .EN_UPDATED ∨ node.state = .EN_UNCHANGED ∨
        node.is_valid = some true) →
      engine_get_data node = none) := by
  constructor
  · intro h
    by_cases h1 : node.state = .EN_UPDATED ∨ node.state = .EN_UNCHANGED
    · simp [engine_get_data, h1]
    · have h2 : node.is_valid = some true := by tauto
      simp [engine_get_data, h1, h2]
  · intro h
    push_neg at h
    simp [engine_get_data, h.1, h.2.1, h.2.2]

/-- C4: the `ENGINE_FUNC_OVSDB` compute-failure diagnostic emits nothing
when debug logging is disabled; when it is enabled it emits exactly one
classification line per tracked row, in traversal order, and every line
classifies its row as New, Deleted, or Updated-with-changed-column-names. -/
theorem en_ovsdb_compute_failure_info_spec (dbg_enabled : Bool)
    (rows : List tracked_row) :
    (dbg_enabled = false →
      en_ovsdb_compute_failure_info dbg_enabled rows = []) ∧
    (dbg_enabled = true →
      (en_ovsdb_compute_failure_info dbg_enabled rows).length = rows.length ∧
      ∀ i : Nat, (en_ovsdb_compute_failure_info dbg_enabled rows)[i]? =
        (rows[i]?).map classify_tracked_row) ∧
    (∀ r : tracked_row,
      classify_tracked_row r = .rowNew r.uuid ∨
      classify_tracked_row r = .rowDeleted r.uuid ∨
      classify_tracked_row r = .rowUpdated r.uuid (changed_column_names r)) := by
  refine ⟨fun h => by simp [en_ovsdb_compute_failure_info, h],
          fun h => ⟨by simp [en_ovsdb_compute_failure_info, h], fun i => by
            simp [en_ovsdb_compute_failure_info, h, List.getElem?_map]⟩,
          fun r => ?_⟩
  by_cases h1 : r.insert_seqno > 0
  · simp [classify_tracked_row, h1]
  · by_cases h2 : r.delete_seqno > 0 <;> simp [classify_tracked_row, h1, h2]

/-- C5: both capacity macros are 256; the `inputs` array of every node and
the `indexes` array of every leaf-adapter payload hold exactly that many
slots; and `engine_add_input` fails (design-level precondition) on a node
whose `n_inputs` has reached the bound.  (The `engine_add_input` body is
modelled from the spec: it is in lib/inc-proc-eng.c, which is not among
the sources.) -/
theorem engine_bounds_spec {D H Table Index : Type}
    (node : engine_node D H) (payload : ed_type_ovsdb_table Table Index)
    (input_name : String) (handler : Option H) :
    ENGINE_MAX_INPUT = 256 ∧
    ENGINE_MAX_OVSDB_INDEX = 256 ∧
    node.inputs.toList.length = ENGINE_MAX_INPUT ∧
    payload.indexes.toList.length = ENGINE_MAX_OVSDB_INDEX ∧
    (node.n_inputs = ENGINE_MAX_INPUT →
      engine_add_input node input_name handler = none) :=
  ⟨rfl, rfl, node.inputs.toList_length, payload.indexes.toList_length,
    fun h => by simp [engine_add_input, h]⟩

/-- C6: every node built by the `ENGINE_NODE` definition macros starts
with state EN_STALE and a NULL data pointer, that initial state is one of
the four node states, and the per-node traversal step only ever assigns
one of the four node states (given that the node's run callback does).
(The traversal step is modelled from the spec: it is in
lib/inc-proc-eng.c, which is not among the sources.) -/
theorem engine_node_def_initial_state {D H : Type} (name : String)
    (forced recompute_allowed : Bool)
    (inputs : List (engine_node_state × Option engine_input_handler_result))
    (run_result : engine_node_state) :
    (ENGINE_NODE_DEF_START D H name).state = .EN_STALE ∧
    (ENGINE_NODE_DEF_START D H name).data = none ∧
    (ENGINE_NODE_DEF_START D H name).state.valid = true ∧
    (run_result.valid = true →
      (engine_run_node_step forced recompute_allowed inputs
        run_result).valid = true) := by
  refine ⟨rfl, rfl, rfl, fun h => ?_⟩
  unfold engine_run_node_step
  split
  · rfl
  · split
    · exact h
    · dsimp only
      split
      · split
        · exact h
        · rfl
      · split <;> rfl

/-- C7: every instantiation of the `ENGINE_FUNC_OVSDB` init callback
returns a non-null, freshly zero-initialized leaf payload whose table
member is the handle obtained from the engine_arg IDL selected by the
node's database name, and whose index registry is empty (n_indexes = 0 and
every index slot zeroed). -/
theorem en_ovsdb_init_spec {Idl Table Index : Type} (db : db_name)
    (table_get : Idl → Table) (arg : engine_arg Idl) :
    ∃ p : ed_type_ovsdb_table Table Index,
      en_ovsdb_init db table_get arg = some p ∧
      p.table = some (table_get (arg.get_idl db)) ∧
      p.n_indexes = 0 ∧
      ∀ i : Fin ENGINE_MAX_OVSDB_INDEX,
        p.indexes.get i = ed_ovsdb_index.zeroed Index := by
  refine ⟨_, rfl, rfl, rfl, fun i => ?_⟩
  exact Mathlib.Vector.get_replicate _ i

/-- C8: `engine_noop_handler` returns EN_HANDLED_UNCHANGED for every node
and every data argument (its result does not depend on either), and an
input edge whose handler is the no-op handler contributes nothing to the
owning node's input scan: it neither raises the needs-recompute flag nor
the any-handled-update flag. -/
theorem engine_noop_handler_spec {D H α : Type} (node : engine_node D H)
    (data : α) (acc : Bool) (st : engine_node_state)
    (rest : List (engine_node_state × Option engine_input_handler_result)) :
    engine_noop_handler node data = .EN_HANDLED_UNCHANGED ∧
    (∀ (node2 : engine_node D H) (data2 : α),
      engine_noop_handler node data = engine_noop_handler node2 data2) ∧
    engine_inputs_scan acc
        ((st, some (engine_noop_handler node data)) :: rest) =
      engine_inputs_scan acc rest := by
  refine ⟨rfl, fun node2 data2 => rfl, ?_⟩
  by_cases hst : st = .EN_UPDATED <;>
    simp [engine_inputs_scan, engine_noop_handler, hst]

/-- C9: every instantiation of the `ENGINE_FUNC_OVSDB` cleanup callback is
a no-op: it neither modifies nor frees the payload cell it is handed, so a
payload that was allocated is still allocated and unchanged afterwards. -/
theorem en_ovsdb_cleanup_noop {D : Type} (cell : Option D) (payload : D) :
    en_ovsdb_cleanup cell = cell ∧
    en_ovsdb_cleanup (some payload) = some payload ∧
    (en_ovsdb_cleanup (some payload)).isSome = true :=
  ⟨rfl, rfl, rfl⟩

/-- C10: the compute-failure classification is decided by a fixed
priority: a positive insert sequence number always classifies the row as
New, even when the delete sequence number is positive too; otherwise a
positive delete sequence number classifies it as Deleted; only when both
are zero is the row classified Updated, carrying its changed column
names. -/
theorem classify_tracked_row_priority (r : tracked_row) :
    (0 < r.insert_seqno → classify_tracked_row r = .rowNew r.uuid) ∧
    (r.insert_seqno = 0 → 0 < r.delete_seqno →
      classify_tracked_row r = .rowDeleted r.uuid) ∧
    (r.insert_seqno = 0 → r.delete_seqno = 0 →
      classify_tracked_row r = .rowUpdated r.uuid (changed_column_names r)) := by
  refine ⟨fun h1 => by simp [classify_tracked_row, h1],
          fun h1 h2 => by simp [classify_tracked_row, h1, h2],
          fun h1 h2 => by simp [classify_tracked_row, h1, h2]⟩

end IncProcEng
